import Mathlib

/-!
Verification development for the `distributed-ecommerce-saga` repository.

The development shallowly embeds the Go source of the saga orchestrator
(`saga-orchestrator/internal/domain` and `internal/service`, plus the
`saga_instances` persistence layer), the inventory service, and the payment
service, and proves or refutes the specification claims about them.

Modelling conventions, applied uniformly:
* 128-bit UUIDs are modelled as `Nat`; `uuid.Nil` is `0`.  Where the Go code
  calls `uuid.New()` the fresh identifier is supplied as an explicit argument
  or drawn from a `nextID` counter, which determinises the generator without
  changing any control flow.
* Monetary `float64` values are modelled as `Rat`: the code only adds and
  compares amounts, and the spec fixes money to a two-digit decimal scale.
* `time.Time` fields (`created_at`, `updated_at`, timestamps on events) are
  elided: no branch of the embedded code reads them.  The nullable
  `completed_at` column is kept as a `Bool` recording presence.
* Go's `map[string]interface{}` payloads and saga contexts are modelled as
  association lists `List (String × JVal)` with Go map semantics: indexing a
  missing key yields the zero value (`JVal.null`), assignment replaces the
  entry.
* Fallible Go functions (returning `error`) become `Except String`; event
  publication is modelled by returning the published events.
-/

namespace Saga

/-- `types.OrderItem` from `shared-domain/types/order.go`. -/
structure OrderItem where
  productID : Nat
  quantity : Int
  price : Rat
deriving DecidableEq, Repr

/-- `types.ShippingAddress` from `shared-domain/types`. -/
structure ShippingAddress where
  street : String
  city : String
  state : String
  zipCode : String
  country : String
deriving DecidableEq, Repr

/-- `types.Order` from `shared-domain/types/order.go` (timestamps elided). -/
structure Order where
  id : Nat
  customerID : Nat
  items : List OrderItem
  totalAmount : Rat
  status : String
  shippingAddress : ShippingAddress
deriving DecidableEq, Repr

/-- The dynamic values that inhabit `interface{}` positions in the saga
context and event payloads of this code base. -/
inductive JVal where
| null : JVal
| str : String → JVal
| num : Rat → JVal
| uid : Nat → JVal
| uids : List Nat → JVal
| ord : Order → JVal
| items : List OrderItem → JVal
| retryCounts : JVal
deriving DecidableEq, Repr

/-- A Go `map[string]interface{}`, as an association list. -/
abbrev JMap : Type := List (String × JVal)

/-- Go map read: a missing key yields the zero value (`nil`). -/
def mapGet (m : JMap) (k : String) : JVal :=
  match m.lookup k with
  | some v => v
  | none => JVal.null

/-- Go map write: replace the entry if the key is present, else add it. -/
def mapSet (m : JMap) (k : String) (v : JVal) : JMap :=
  if (List.lookup k m).isSome then
    m.map fun kv => if kv.1 = k then (k, v) else kv
  else
    m ++ [(k, v)]

/-- `domain.SagaStatus` from `saga-orchestrator/internal/domain/saga.go`. -/
inductive SagaStatus where
| started : SagaStatus
| inProgress : SagaStatus
| completed : SagaStatus
| failed : SagaStatus
| compensating : SagaStatus
| compensated : SagaStatus
deriving DecidableEq, Repr

/-- `domain.SagaStep`: the five forward steps and four compensation steps. -/
inductive SagaStep where
| orderCreated : SagaStep
| paymentProcessed : SagaStep
| inventoryReserved : SagaStep
| shippingCreated : SagaStep
| notificationSent : SagaStep
| orderCancelled : SagaStep
| paymentRefunded : SagaStep
| inventoryReleased : SagaStep
| shippingCancelled : SagaStep
deriving DecidableEq, Repr

/-- `domain.SagaInstance` (timestamps elided, `completed_at` kept as
presence flag). -/
structure SagaInstance where
  id : Nat
  orderID : Nat
  customerID : Nat
  status : SagaStatus
  currentStep : SagaStep
  completedSteps : List SagaStep
  failureReason : String
  compensatedSteps : List SagaStep
  context : JMap
  completedAt : Bool
deriving DecidableEq, Repr

/-- `SagaInstance.IsStepCompleted`: linear scan of `CompletedSteps`. -/
def SagaInstance.isStepCompleted (s : SagaInstance) (step : SagaStep) : Bool :=
  s.completedSteps.any fun completed => decide (completed = step)

/-- `SagaInstance.MarkStepCompleted`: appends the step if absent, and
unconditionally overwrites `CurrentStep` (exactly as the source does). -/
def SagaInstance.markStepCompleted (s : SagaInstance) (step : SagaStep) : SagaInstance :=
  let s :=
    if s.isStepCompleted step then s
    else { s with completedSteps := s.completedSteps ++ [step] }
  { s with currentStep := step }

/-- `SagaInstance.GetNextStep`: the fixed forward chain; the empty string
return of the source is `none`. -/
def SagaInstance.getNextStep (s : SagaInstance) : Option SagaStep :=
  match s.currentStep with
  | .orderCreated => some .paymentProcessed
  | .paymentProcessed => some .inventoryReserved
  | .inventoryReserved => some .shippingCreated
  | .shippingCreated => some .notificationSent
  | _ => none

/-- `SagaInstance.IsCompensationCompleted`: scan of `CompensatedSteps`. -/
def SagaInstance.isCompensationCompleted (s : SagaInstance) (compensationStep : SagaStep) : Bool :=
  s.compensatedSteps.any fun compensated => decide (compensated = compensationStep)

/-- `SagaInstance.MarkCompensationCompleted`. -/
def SagaInstance.markCompensationCompleted (s : SagaInstance) (compensationStep : SagaStep) : SagaInstance :=
  if s.isCompensationCompleted compensationStep then s
  else { s with compensatedSteps := s.compensatedSteps ++ [compensationStep] }

/-- `SagaInstance.GetCompensationStep`: first completed forward step, scanned
in reverse chain order, whose compensation is not yet recorded. -/
def SagaInstance.getCompensationStep (s : SagaInstance) : Option SagaStep :=
  if s.isStepCompleted .shippingCreated && !(s.isCompensationCompleted .shippingCancelled) then
    some .shippingCancelled
  else if s.isStepCompleted .inventoryReserved && !(s.isCompensationCompleted .inventoryReleased) then
    some .inventoryReleased
  else if s.isStepCompleted .paymentProcessed && !(s.isCompensationCompleted .paymentRefunded) then
    some .paymentRefunded
  else if s.isStepCompleted .orderCreated && !(s.isCompensationCompleted .orderCancelled) then
    some .orderCancelled
  else
    none

/-- One row of the `saga_instances` table, with exactly the columns of the
migration (`001_create_saga_tables.sql`): `id, order_id, customer_id, status,
current_step, completed_steps, failure_reason, context, created_at,
updated_at, completed_at`.  The table has **no** `compensated_steps`
column. -/
structure SagaRow where
  orderID : Nat
  customerID : Nat
  status : SagaStatus
  currentStep : SagaStep
  completedSteps : List SagaStep
  failureReason : String
  context : JMap
  completedAt : Bool
deriving DecidableEq, Repr

/-- The orchestrator database: `saga_instances` keyed by saga id. -/
abbrev SagaDB : Type := List (Nat × SagaRow)

/-- `SagaRepository.CreateSaga`: INSERT of the columns listed in the source
(`completed_at` is not in the column list and defaults to NULL).  The primary
key on `id` and the UNIQUE constraint on `order_id` reject duplicates. -/
def createSaga (db : SagaDB) (s : SagaInstance) : Except String SagaDB :=
  if (List.lookup s.id db).isSome || db.any (fun e => decide (e.2.orderID = s.orderID)) then
    Except.error "saga creation error: unique constraint violation"
  else
    Except.ok (db ++ [(s.id,
      { orderID := s.orderID
        customerID := s.customerID
        status := s.status
        currentStep := s.currentStep
        completedSteps := s.completedSteps
        failureReason := s.failureReason
        context := s.context
        completedAt := false })])

/-- `SagaRepository.GetSagaByID`: the SELECT scans every column of the table;
since the table stores no compensation record, the reconstructed
`SagaInstance.CompensatedSteps` is the Go zero value (the empty slice). -/
def getSagaByID (db : SagaDB) (sagaID : Nat) : Except String SagaInstance :=
  match List.lookup sagaID db with
  | none => Except.error ("saga not found: " ++ toString sagaID)
  | some r =>
    Except.ok
      { id := sagaID
        orderID := r.orderID
        customerID := r.customerID
        status := r.status
        currentStep := r.currentStep
        completedSteps := r.completedSteps
        failureReason := r.failureReason
        compensatedSteps := []
        context := r.context
        completedAt := r.completedAt }

/-- `SagaRepository.UpdateSaga`: UPDATE setting `status, current_step,
completed_steps, failure_reason, context, updated_at, completed_at` for the
row with the saga's id; zero affected rows is an error. -/
def updateSaga (db : SagaDB) (s : SagaInstance) : Except String SagaDB :=
  if (List.lookup s.id db).isSome then
    Except.ok (db.map fun e =>
      if e.1 = s.id then
        (e.1, { e.2 with
                status := s.status
                currentStep := s.currentStep
                completedSteps := s.completedSteps
                failureReason := s.failureReason
                context := s.context
                completedAt := s.completedAt })
      else e)
  else
    Except.error ("saga not found: " ++ toString s.id)

/-- `events.SagaEvent` (envelope id, correlation id and timestamp elided:
they are fresh `uuid.New()` / `time.Now()` values read by no embedded
branch). -/
structure SagaEvent where
  eventType : String
  sagaID : Nat
  orderID : Nat
  service : String
  payload : JMap
deriving DecidableEq, Repr

/-- `events.OrderCreatedEvent`. -/
def OrderCreatedEvent : String := "order.created"

/-- `events.OrderCompletedEvent`. -/
def OrderCompletedEvent : String := "order.completed"

/-- `events.OrderCancelledEvent`. -/
def OrderCancelledEvent : String := "order.cancelled"

/-- `events.PaymentProcessedEvent`. -/
def PaymentProcessedEvent : String := "payment.processed"

/-- `events.PaymentFailedEvent`. -/
def PaymentFailedEvent : String := "payment.failed"

/-- `events.PaymentRefundedEvent`. -/
def PaymentRefundedEvent : String := "payment.refunded"

/-- `events.InventoryReservedEvent`. -/
def InventoryReservedEvent : String := "inventory.reserved"

/-- `events.InventoryFailedEvent`. -/
def InventoryFailedEvent : String := "inventory.failed"

/-- `events.InventoryReleasedEvent`. -/
def InventoryReleasedEvent : String := "inventory.released"

/-- `events.ShippingCreatedEvent`. -/
def ShippingCreatedEvent : String := "shipping.created"

/-- `events.ShippingFailedEvent`. -/
def ShippingFailedEvent : String := "shipping.failed"

/-- `events.ShippingCancelledEvent`. -/
def ShippingCancelledEvent : String := "shipping.cancelled"

/-- `events.NotificationSentEvent`. -/
def NotificationSentEvent : String := "notification.sent"

/-- `events.NotificationFailedEvent`. -/
def NotificationFailedEvent : String := "notification.failed"

/-- `SagaOrchestrator.sendStepEvent`: builds and publishes the forward
command for a step; unknown steps are an error. -/
def sendStepEvent (saga : SagaInstance) (step : SagaStep) : Except String SagaEvent :=
  match step with
  | .paymentProcessed =>
    Except.ok
      { eventType := "payment.process", sagaID := saga.id, orderID := saga.orderID,
        service := "saga-orchestrator",
        payload := [("order_id", JVal.uid saga.orderID),
                    ("customer_id", JVal.uid saga.customerID),
                    ("amount", mapGet saga.context "total_amount"),
                    ("payment_method", JVal.str "credit_card")] }
  | .inventoryReserved =>
    Except.ok
      { eventType := "inventory.reserve", sagaID := saga.id, orderID := saga.orderID,
        service := "saga-orchestrator",
        payload := [("order_id", JVal.uid saga.orderID),
                    ("items", mapGet saga.context "items")] }
  | .shippingCreated =>
    Except.ok
      { eventType := "shipping.create", sagaID := saga.id, orderID := saga.orderID,
        service := "saga-orchestrator",
        payload := [("order_id", JVal.uid saga.orderID),
                    ("customer_id", JVal.uid saga.customerID),
                    ("items", mapGet saga.context "items")] }
  | .notificationSent =>
    Except.ok
      { eventType := "notification.send", sagaID := saga.id, orderID := saga.orderID,
        service := "saga-orchestrator",
        payload := [("order_id", JVal.uid saga.orderID),
                    ("customer_id", JVal.uid saga.customerID),
                    ("type", JVal.str "order_confirmation"),
                    ("message", JVal.str "Siparisiniz basariyla olusturuldu!")] }
  | _ => Except.error "unknown step"

/-- `SagaOrchestrator.sendCompensationEvent`: builds and publishes the
compensation command for a compensation step. -/
def sendCompensationEvent (saga : SagaInstance) (compensationStep : SagaStep) : Except String SagaEvent :=
  match compensationStep with
  | .shippingCancelled =>
    Except.ok
      { eventType := "shipping.cancel", sagaID := saga.id, orderID := saga.orderID,
        service := "saga-orchestrator",
        payload := [("shipment_id", mapGet saga.context "shipment_id"),
                    ("reason", JVal.str saga.failureReason)] }
  | .inventoryReleased =>
    Except.ok
      { eventType := "inventory.release", sagaID := saga.id, orderID := saga.orderID,
        service := "saga-orchestrator",
        payload := [("reservation_ids", mapGet saga.context "reservation_ids"),
                    ("reason", JVal.str saga.failureReason)] }
  | .paymentRefunded =>
    Except.ok
      { eventType := "payment.refund", sagaID := saga.id, orderID := saga.orderID,
        service := "saga-orchestrator",
        payload := [("payment_id", mapGet saga.context "payment_id"),
                    ("transaction_id", mapGet saga.context "transaction_id"),
                    ("amount", mapGet saga.context "total_amount"),
                    ("reason", JVal.str saga.failureReason)] }
  | .orderCancelled =>
    Except.ok
      { eventType := "order.cancel", sagaID := saga.id, orderID := saga.orderID,
        service := "saga-orchestrator",
        payload := [("order_id", JVal.uid saga.orderID),
                    ("reason", JVal.str saga.failureReason)] }
  | _ => Except.error "unknown compensation step"

/-- `SagaOrchestrator.completeSaga`: terminal success; persists `completed`
and publishes `order.completed`. -/
def completeSaga (db : SagaDB) (saga : SagaInstance) : Except String (SagaDB × List SagaEvent) := do
  let saga := { saga with status := SagaStatus.completed, completedAt := true }
  let db ← updateSaga db saga
  let ev : SagaEvent :=
    { eventType := OrderCompletedEvent, sagaID := saga.id, orderID := saga.orderID,
      service := "saga-orchestrator",
      payload := [("order_id", JVal.uid saga.orderID), ("status", JVal.str "completed")] }
  return (db, [ev])

/-- `SagaOrchestrator.processNextStep`: advance to the next forward command,
or finish; the saga is set `in_progress` and persisted before the command is
published. -/
def processNextStep (db : SagaDB) (saga : SagaInstance) : Except String (SagaDB × List SagaEvent) :=
  match saga.getNextStep with
  | none => completeSaga db saga
  | some nextStep => do
    let saga := { saga with status := SagaStatus.inProgress }
    let db ← updateSaga db saga
    let ev ← sendStepEvent saga nextStep
    return (db, [ev])

/-- `SagaOrchestrator.compensationCompleted`: terminal compensation; persists
`compensated` and publishes `order.cancelled` with the failure reason. -/
def compensationCompleted (db : SagaDB) (saga : SagaInstance) : Except String (SagaDB × List SagaEvent) := do
  let saga := { saga with status := SagaStatus.compensated, completedAt := true }
  let db ← updateSaga db saga
  let ev : SagaEvent :=
    { eventType := OrderCancelledEvent, sagaID := saga.id, orderID := saga.orderID,
      service := "saga-orchestrator",
      payload := [("order_id", JVal.uid saga.orderID),
                  ("reason", JVal.str saga.failureReason)] }
  return (db, [ev])

/-- `SagaOrchestrator.startCompensation`: select the next pending
compensation; persist, then publish it, or finalize when none remains. -/
def startCompensation (db : SagaDB) (saga : SagaInstance) : Except String (SagaDB × List SagaEvent) :=
  match saga.getCompensationStep with
  | none => compensationCompleted db saga
  | some compensationStep => do
    let db ← updateSaga db saga
    let ev ← sendCompensationEvent saga compensationStep
    return (db, [ev])

/-- `SagaOrchestrator.HandleCompensationSuccess`: load, mark the compensation
done in memory, continue the chain. -/
def handleCompensationSuccess (db : SagaDB) (sagaID : Nat) (completedCompensation : SagaStep) : Except String (SagaDB × List SagaEvent) := do
  let saga ← getSagaByID db sagaID
  let saga := saga.markCompensationCompleted completedCompensation
  startCompensation db saga

/-- `SagaOrchestrator.HandleStepFailure`: load, record the payload `reason`
when it is a string, set `compensating`, start the compensation chain. -/
def handleStepFailure (db : SagaDB) (sagaID : Nat) (eventData : JMap) : Except String (SagaDB × List SagaEvent) := do
  let saga ← getSagaByID db sagaID
  let saga :=
    match mapGet eventData "reason" with
    | JVal.str reason => { saga with failureReason := reason }
    | _ => saga
  let saga := { saga with status := SagaStatus.compensating }
  startCompensation db saga

/-- `SagaOrchestrator.HandleStepSuccess`: load, mark the step completed,
merge the step outputs into the context, advance. -/
def handleStepSuccess (db : SagaDB) (sagaID : Nat) (completedStep : SagaStep) (eventData : JMap) : Except String (SagaDB × List SagaEvent) := do
  let saga ← getSagaByID db sagaID
  let saga := saga.markStepCompleted completedStep
  let saga :=
    match completedStep with
    | .paymentProcessed =>
      { saga with
        context := mapSet (mapSet saga.context "payment_id" (mapGet eventData "payment_id")) "transaction_id" (mapGet eventData "transaction_id") }
    | .inventoryReserved =>
      { saga with
        context := mapSet saga.context "reservation_ids" (mapGet eventData "reservation_ids") }
    | .shippingCreated =>
      { saga with
        context := mapSet (mapSet saga.context "shipment_id" (mapGet eventData "shipment_id")) "tracking_id" (mapGet eventData "tracking_id") }
    | _ => saga
  processNextStep db saga

/-- `SagaOrchestrator.ProcessIncomingEvent`: the event dispatch switch.  The
cases are exactly those of the source: four forward successes, the payment
and inventory failures, and three compensation successes.  Every other event
type (including `order.created`, `shipping.failed` and `notification.failed`)
falls to the default branch, which only logs and returns nil. -/
def processIncomingEvent (db : SagaDB) (event : SagaEvent) : Except String (SagaDB × List SagaEvent) :=
  if event.eventType = PaymentProcessedEvent then
    handleStepSuccess db event.sagaID SagaStep.paymentProcessed event.payload
  else if event.eventType = InventoryReservedEvent then
    handleStepSuccess db event.sagaID SagaStep.inventoryReserved event.payload
  else if event.eventType = ShippingCreatedEvent then
    handleStepSuccess db event.sagaID SagaStep.shippingCreated event.payload
  else if event.eventType = NotificationSentEvent then
    handleStepSuccess db event.sagaID SagaStep.notificationSent event.payload
  else if event.eventType = PaymentFailedEvent then
    handleStepFailure db event.sagaID event.payload
  else if event.eventType = InventoryFailedEvent then
    handleStepFailure db event.sagaID event.payload
  else if event.eventType = ShippingCancelledEvent then
    handleCompensationSuccess db event.sagaID SagaStep.shippingCancelled
  else if event.eventType = InventoryReleasedEvent then
    handleCompensationSuccess db event.sagaID SagaStep.inventoryReleased
  else if event.eventType = PaymentRefundedEvent then
    handleCompensationSuccess db event.sagaID SagaStep.paymentRefunded
  else
    Except.ok (db, [])

/-- `SagaOrchestrator.StartSaga`: build the initial saga instance for an
order (the fresh `uuid.New()` saga id is the `sagaID` argument), persist it,
then process the next step. -/
def startSaga (db : SagaDB) (sagaID : Nat) (order : Order) : Except String (SagaDB × List SagaEvent) := do
  let saga : SagaInstance :=
    { id := sagaID, orderID := order.id, customerID := order.customerID,
      status := SagaStatus.started, currentStep := SagaStep.orderCreated,
      completedSteps := [SagaStep.orderCreated], failureReason := "",
      compensatedSteps := [], completedAt := false,
      context := [("order", JVal.ord order),
                  ("total_amount", JVal.num order.totalAmount),
                  ("items", JVal.items order.items),
                  ("retry_counts", JVal.retryCounts)] }
  let db ← createSaga db saga
  processNextStep db saga

/-! ### Claim C1: `order.created` handling -/

/-- Claim C1, divergence theorem.  The claim states that for every inbound
event whose `event_type` is `order.created`, `ProcessIncomingEvent` creates
and persists a new `started` saga seeded from the order and emits
`payment.process`.  In the source, the dispatch switch has no
`order.created` case at all (`StartSaga` has no caller), so the event falls
to the default branch: the database is unchanged and nothing is emitted. -/
theorem C1_order_created_event_ignored (db : SagaDB) (ev : SagaEvent)
    (h : ev.eventType = "order.created") :
    processIncomingEvent db ev = Except.ok (db, []) := by
  unfold processIncomingEvent
  rw [h]
  rfl

/-- The `order.created` event published by the order service for order 2
of customer 3, as received by the orchestrator. -/
def c1Ev : SagaEvent :=
  { eventType := "order.created"
    sagaID := 1
    orderID := 2
    service := "order-service"
    payload := [("order", JVal.ord
      { id := 2
        customerID := 3
        items := [{ productID := 4, quantity := 2, price := 1299.99 }]
        totalAmount := 2599.98
        status := "processing"
        shippingAddress := { street := "s", city := "c", state := "st", zipCode := "z", country := "tr" } })] }

/-- Claim C1, witness: on an empty database the `order.created` event leaves
the database empty and emits nothing. -/
theorem C1_witness : processIncomingEvent [] c1Ev = Except.ok ([], []) :=
  C1_order_created_event_ignored [] c1Ev rfl

/-! ### Claim C2: forward failure replies -/

/-- Claim C2, divergence theorem.  The claim states that `payment.failed`,
`inventory.failed` **and** `shipping.failed` alike make the orchestrator
record the failure reason, transition to `compensating` and emit the first
compensation command.  The dispatch switch has failure cases only for
`payment.failed` and `inventory.failed`; `shipping.failed` falls to the
default branch, so the saga is untouched and no compensation starts. -/
theorem C2_shipping_failed_event_ignored (db : SagaDB) (ev : SagaEvent)
    (h : ev.eventType = "shipping.failed") :
    processIncomingEvent db ev = Except.ok (db, []) := by
  unfold processIncomingEvent
  rw [h]
  rfl

/-- A saga that has completed payment and inventory reservation and is
waiting on the shipping reply: the state in which a `shipping.failed` reply
arrives. -/
def c2Row : SagaRow :=
  { orderID := 2
    customerID := 3
    status := SagaStatus.inProgress
    currentStep := SagaStep.inventoryReserved
    completedSteps := [SagaStep.orderCreated, SagaStep.paymentProcessed, SagaStep.inventoryReserved]
    failureReason := ""
    context := [("payment_id", JVal.uid 11), ("transaction_id", JVal.str "TXN_1"),
                ("reservation_ids", JVal.uids [100]), ("total_amount", JVal.num 2599.98)]
    completedAt := false }

/-- The `shipping.failed` reply for that saga. -/
def c2Ev : SagaEvent :=
  { eventType := "shipping.failed"
    sagaID := 1
    orderID := 2
    service := "shipping-service"
    payload := [("order_id", JVal.uid 2), ("reason", JVal.str "Shipping provider unavailable")] }

/-- Claim C2, witness: the `shipping.failed` reply against the mid-flight
saga leaves the persisted saga unchanged (status still `in_progress`, no
failure reason) and emits no compensation command. -/
theorem C2_witness : processIncomingEvent [(1, c2Row)] c2Ev = Except.ok ([(1, c2Row)], []) :=
  C2_shipping_failed_event_ignored [(1, c2Row)] c2Ev rfl

/-! ### Claim C3: persistence of compensation records -/

/-- A saga in compensation whose forward chain completed through
`shipping_created`. -/
def c3Row : SagaRow :=
  { orderID := 2
    customerID := 3
    status := SagaStatus.compensating
    currentStep := SagaStep.shippingCreated
    completedSteps := [SagaStep.orderCreated, SagaStep.paymentProcessed,
                       SagaStep.inventoryReserved, SagaStep.shippingCreated]
    failureReason := "boom"
    context := [("payment_id", JVal.uid 11), ("transaction_id", JVal.str "TXN_1"),
                ("reservation_ids", JVal.uids [100]), ("shipment_id", JVal.uid 200),
                ("tracking_id", JVal.str "TRK"), ("total_amount", JVal.num 2599.98)]
    completedAt := false }

/-- The orchestrator database holding that saga. -/
def c3DB : SagaDB := [(1, c3Row)]

/-- A compensation success reply of the given type for saga 1. -/
def c3Ev (t : String) : SagaEvent :=
  { eventType := t, sagaID := 1, orderID := 2, service := "x", payload := [] }

/-- Claim C3, divergence theorem.  The claim states that handling a
compensation success persists the recorded compensation step so that a
subsequent load returns it.  In the source, `UpdateSaga` writes no
`compensated_steps` column (the `saga_instances` table has none) and
`GetSagaByID` reconstructs `CompensatedSteps` as empty.  Consequently:
handling `shipping.cancelled` emits `inventory.release` but leaves the
persisted row bit-for-bit unchanged, a reload still shows no compensated
step, and the following `inventory.released` reply selects
`shipping_cancelled` again — emitting `shipping.cancel` a second time
instead of `payment.refund`.  The terminal `compensated` invariant of the
claim is never established because the recorded steps are dropped on every
persist. -/
theorem C3_compensation_record_lost :
    ((processIncomingEvent c3DB (c3Ev "shipping.cancelled")).map
        (fun r => (r.1, r.2.map (fun e => e.eventType)))
      = Except.ok (c3DB, ["inventory.release"]))
    ∧ ((getSagaByID c3DB 1).map (fun s => s.compensatedSteps) = Except.ok [])
    ∧ ((processIncomingEvent c3DB (c3Ev "inventory.released")).map
        (fun r => (r.1, r.2.map (fun e => e.eventType)))
      = Except.ok (c3DB, ["shipping.cancel"])) :=
  ⟨rfl, rfl, rfl⟩

/-! ### Claim C4: replaying a forward success reply -/

/-- A saga that has advanced past `payment_processed` and is waiting for the
shipping reply, about to receive a duplicate `payment.processed`. -/
def c4Row : SagaRow :=
  { orderID := 2
    customerID := 3
    status := SagaStatus.inProgress
    currentStep := SagaStep.inventoryReserved
    completedSteps := [SagaStep.orderCreated, SagaStep.paymentProcessed, SagaStep.inventoryReserved]
    failureReason := ""
    context := [("total_amount", JVal.num 2599.98), ("items", JVal.items [{ productID := 4, quantity := 2, price := 1299.99 }]),
                ("payment_id", JVal.uid 11), ("transaction_id", JVal.str "TXN_1"),
                ("reservation_ids", JVal.uids [100])]
    completedAt := false }

/-- The orchestrator database holding that saga. -/
def c4DB : SagaDB := [(1, c4Row)]

/-- The duplicate `payment.processed` reply (same payload as the first
delivery). -/
def c4Ev : SagaEvent :=
  { eventType := "payment.processed"
    sagaID := 1
    orderID := 2
    service := "payment-service"
    payload := [("payment_id", JVal.uid 11), ("transaction_id", JVal.str "TXN_1")] }

/-- Claim C4, divergence theorem.  The claim states that replaying a forward
success reply whose step is already recorded is a no-op: the persisted saga
is unchanged, `current_step` does not regress, and the next command is not
re-emitted (or is without further effect).  In the source,
`MarkStepCompleted` overwrites `CurrentStep` unconditionally, so the replay
of `payment.processed` against a saga already at `inventory_reserved`
regresses the persisted `current_step` back to `payment_processed` and
re-emits `inventory.reserve` — which, when answered, will re-drive the whole
tail of the forward chain. -/
theorem C4_duplicate_success_regresses_current_step :
    ((List.lookup 1 c4DB).map (fun row => row.currentStep) = some SagaStep.inventoryReserved)
    ∧ ((processIncomingEvent c4DB c4Ev).map
        (fun r => ((List.lookup 1 r.1).map (fun row => row.currentStep),
                   r.2.map (fun e => e.eventType)))
      = Except.ok (some SagaStep.paymentProcessed, ["inventory.reserve"]))
    ∧ SagaStep.paymentProcessed ≠ SagaStep.inventoryReserved :=
  ⟨rfl, rfl, by decide⟩

/-! ### Claim C8: `notification.failed` handling -/

/-- A saga whose forward chain succeeded up to shipping, waiting on the
notification reply. -/
def c8Row : SagaRow :=
  { orderID := 2
    customerID := 3
    status := SagaStatus.inProgress
    currentStep := SagaStep.notificationSent
    completedSteps := [SagaStep.orderCreated, SagaStep.paymentProcessed,
                       SagaStep.inventoryReserved, SagaStep.shippingCreated,
                       SagaStep.notificationSent]
    failureReason := ""
    context := [("total_amount", JVal.num 2599.98)]
    completedAt := false }

/-- The orchestrator database holding that saga. -/
def c8DB : SagaDB := [(1, c8Row)]

/-- The `notification.failed` reply for that saga. -/
def c8Ev : SagaEvent :=
  { eventType := "notification.failed"
    sagaID := 1
    orderID := 2
    service := "notification-service"
    payload := [("order_id", JVal.uid 2), ("reason", JVal.str "Notification provider unavailable")] }

/-- Claim C8, counterexample.  The claim states that on `notification.failed`
the orchestrator records the failure in the saga context and the saga still
reaches terminal `completed` with `order.completed` emitted.  At this
concrete input the event falls to the default branch of the dispatch switch:
the database is unchanged (nothing recorded), no event at all is emitted
(in particular no `order.completed`), and the persisted saga remains
`in_progress`, not `completed`. -/
theorem C8_counterexample :
    (processIncomingEvent c8DB c8Ev = Except.ok (c8DB, []))
    ∧ ((getSagaByID c8DB 1).map (fun s => s.status) = Except.ok SagaStatus.inProgress)
    ∧ SagaStatus.inProgress ≠ SagaStatus.completed :=
  ⟨rfl, rfl, by decide⟩

/-- Claim C8 as amended: the orchestrator indeed triggers no compensation
when the notification step fails, but not by the mechanism the claim states:
`notification.failed` matches no case of the dispatch switch, so the
orchestrator ignores it entirely — nothing is recorded in the saga context,
no event is emitted, and the saga is left exactly as it was (it does not
transition to `completed` in response to this reply). -/
theorem C8_notification_failed_ignored (db : SagaDB) (ev : SagaEvent)
    (h : ev.eventType = "notification.failed") :
    processIncomingEvent db ev = Except.ok (db, []) := by
  unfold processIncomingEvent
  rw [h]
  rfl

/-- Claim C8, witness for the amended theorem. -/
theorem C8_witness : processIncomingEvent c8DB c8Ev = Except.ok (c8DB, []) :=
  C8_notification_failed_ignored c8DB c8Ev rfl

/-! ## Payment service
Embedding of `payment-service/internal/domain/payment.go`,
`internal/repository/payment_repository.go` and
`internal/service/payment_service.go`. -/

/-- `types.PaymentStatus`. -/
inductive PaymentStatus where
| pending : PaymentStatus
| completed : PaymentStatus
| failed : PaymentStatus
| refunded : PaymentStatus
deriving DecidableEq, Repr

/-- `domain.PaymentAggregate` (timestamps elided; the nullable
`processed_at` / `refunded_at` kept as presence flags). -/
structure PaymentAggregate where
  id : Nat
  orderID : Nat
  customerID : Nat
  sagaID : Nat
  amount : Rat
  paymentMethod : String
  status : PaymentStatus
  transactionID : String
  externalRef : String
  failureReason : String
  refundedAmount : Rat
  refundReference : String
  processedAt : Bool
  refundedAt : Bool
deriving DecidableEq, Repr

/-- `domain.NewPaymentAggregate` (the fresh `uuid.New()` payment id is the
`paymentID` argument). -/
def newPaymentAggregate (paymentID orderID customerID sagaID : Nat) (amount : Rat) (paymentMethod : String) : PaymentAggregate :=
  { id := paymentID
    orderID := orderID
    customerID := customerID
    sagaID := sagaID
    amount := amount
    paymentMethod := paymentMethod
    status := PaymentStatus.pending
    transactionID := ""
    externalRef := ""
    failureReason := ""
    refundedAmount := 0
    refundReference := ""
    processedAt := false
    refundedAt := false }

/-- `PaymentAggregate.ProcessPayment`: mark completed. -/
def PaymentAggregate.processPayment (p : PaymentAggregate) (transactionID externalRef : String) : PaymentAggregate :=
  { p with
    status := PaymentStatus.completed
    transactionID := transactionID
    externalRef := externalRef
    processedAt := true }

/-- `PaymentAggregate.RefundPayment`: the guarded refund transition. -/
def PaymentAggregate.refundPayment (p : PaymentAggregate) (refundRef : String) (amount : Rat) : Except String PaymentAggregate :=
  if p.status ≠ PaymentStatus.completed then
    Except.error "only completed payments can be refunded"
  else if amount ≤ 0 ∨ amount > p.amount then
    Except.error "invalid refund amount"
  else if p.refundedAmount + amount > p.amount then
    Except.error "total refund amount limit exceed"
  else
    Except.ok
      { p with
        status := PaymentStatus.refunded
        refundedAmount := p.refundedAmount + amount
        refundReference := refundRef
        refundedAt := true }

/-- `PaymentAggregate.CanRefund`. -/
def PaymentAggregate.canRefund (p : PaymentAggregate) : Bool :=
  decide (p.status = PaymentStatus.completed) && decide (p.refundedAmount < p.amount)

/-- `PaymentAggregate.GetRemainingRefundAmount`. -/
def PaymentAggregate.getRemainingRefundAmount (p : PaymentAggregate) : Rat :=
  p.amount - p.refundedAmount

/-- `PaymentAggregate.IsFullyRefunded`. -/
def PaymentAggregate.isFullyRefunded (p : PaymentAggregate) : Bool :=
  decide (p.refundedAmount ≥ p.amount)

/-- `PaymentAggregate.FailPayment`. -/
def PaymentAggregate.failPayment (p : PaymentAggregate) (reason : String) : PaymentAggregate :=
  { p with status := PaymentStatus.failed, failureReason := reason }

/-- The `payments` table plus the `uuid.New()` counter.  The table has a
primary key on `id` and a UNIQUE constraint on `order_id`. -/
structure PaymentDB where
  payments : List PaymentAggregate
  nextID : Nat
deriving DecidableEq, Repr

/-- `PaymentRepository.CreatePayment`: plain INSERT; the unique constraints
reject a duplicate `id` or `order_id`. -/
def createPayment (db : PaymentDB) (p : PaymentAggregate) : Except String PaymentDB :=
  if db.payments.any (fun q => decide (q.id = p.id) || decide (q.orderID = p.orderID)) then
    Except.error "duplicate key value violates unique constraint"
  else
    Except.ok { db with payments := db.payments ++ [p] }

/-- `PaymentRepository.UpdatePayment`: UPDATE by `id`.  (The zero-rows error
return is discarded or merely logged at every call site of the embedded
flows, so the update is modelled as total.) -/
def updatePayment (db : PaymentDB) (p : PaymentAggregate) : PaymentDB :=
  { db with payments := db.payments.map fun q => if q.id = p.id then p else q }

/-- `PaymentRepository.GetPaymentByID`. -/
def getPaymentByID (db : PaymentDB) (paymentID : Nat) : Except String PaymentAggregate :=
  match db.payments.find? (fun p => decide (p.id = paymentID)) with
  | some p => Except.ok p
  | none => Except.error ("payment not found: " ++ toString paymentID)

/-- `PaymentRepository.GetPaymentsBySagaID`: all of the saga's payments,
newest first (`ORDER BY created_at DESC`; rows are appended in creation
order, so the reverse is the descending order). -/
def getPaymentsBySagaID (db : PaymentDB) (sagaID : Nat) : List PaymentAggregate :=
  (db.payments.filter fun p => decide (p.sagaID = sagaID)).reverse

/-- `gateway.PaymentResponse` of the payment gateway adapter. -/
structure GatewayPaymentResponse where
  success : Bool
  transactionID : String
  externalRef : String
  status : String
  amount : Rat
  failureReason : String
deriving DecidableEq, Repr

/-- `gateway.RefundResponse` of the payment gateway adapter. -/
structure GatewayRefundResponse where
  success : Bool
  refundID : String
  refundReference : String
  amount : Rat
  failureReason : String
deriving DecidableEq, Repr

/-- `domain.PaymentProcessRequest`. -/
structure PaymentProcessRequest where
  sagaID : Nat
  orderID : Nat
  customerID : Nat
  amount : Rat
  paymentMethod : String
deriving DecidableEq, Repr

/-- `domain.PaymentRefundRequest`. -/
structure PaymentRefundRequest where
  sagaID : Nat
  paymentID : Nat
  transactionID : String
  amount : Rat
  reason : String
deriving DecidableEq, Repr

/-- The events the payment service publishes, one constructor per publisher
of the source, holding exactly the payload fields the source marshals. -/
inductive PaymentOutEvent where
| processed (sagaID orderID : Nat) (payment : PaymentAggregate) : PaymentOutEvent
| failed (sagaID orderID : Nat) (reason : String) (amount : Rat) : PaymentOutEvent
| refunded (sagaID orderID paymentID : Nat) (transactionID refundReference : String) (refundedAmount totalRefunded : Rat) : PaymentOutEvent
| refundFailed (sagaID : Nat) (reason : String) : PaymentOutEvent
deriving DecidableEq, Repr

/-- `PaymentService.ProcessPayment`: validate, insert pending, call the
gateway (the gateway call outcome is the `gw` argument), mark and publish.
An insert error — in particular the unique-constraint collision of a
duplicate command — publishes `payment.failed` with a database-error
reason. -/
def processPayment (db : PaymentDB) (gw : Except String GatewayPaymentResponse) (request : PaymentProcessRequest) : PaymentDB × PaymentOutEvent :=
  if request.amount ≤ 0 then
    (db, PaymentOutEvent.failed request.sagaID request.orderID "Invalid payment amount" request.amount)
  else
    let payment := newPaymentAggregate db.nextID request.orderID request.customerID request.sagaID request.amount request.paymentMethod
    let db := { db with nextID := db.nextID + 1 }
    match createPayment db payment with
    | Except.error e =>
      (db, PaymentOutEvent.failed request.sagaID request.orderID ("Database error: " ++ e) request.amount)
    | Except.ok db =>
      match gw with
      | Except.error e =>
        let payment := payment.failPayment ("Gateway error: " ++ e)
        let db := updatePayment db payment
        (db, PaymentOutEvent.failed request.sagaID request.orderID ("Payment gateway error: " ++ e) request.amount)
      | Except.ok resp =>
        if !resp.success then
          let payment := payment.failPayment resp.failureReason
          let db := updatePayment db payment
          (db, PaymentOutEvent.failed request.sagaID request.orderID resp.failureReason request.amount)
        else
          let payment := payment.processPayment resp.transactionID resp.externalRef
          let db := updatePayment db payment
          (db, PaymentOutEvent.processed payment.sagaID payment.orderID payment)

/-- The outcome of `PaymentService.ProcessRefund`: either a published event,
or the run-time fault of calling `CanRefund` on a nil aggregate pointer. -/
inductive RefundOutcome where
| event (e : PaymentOutEvent) : RefundOutcome
| nilDeref : RefundOutcome
deriving DecidableEq, Repr

/-- `PaymentService.ProcessRefund`.  The lookup phase mirrors the source,
including the shadowed inner `err` of the `transaction_id` branch (the outer
`err` stays nil there); when neither lookup branch assigns a payment, the
subsequent `payment.CanRefund()` dereferences the nil pointer, modelled by
`RefundOutcome.nilDeref`. -/
def processRefund (db : PaymentDB) (gw : Except String GatewayRefundResponse) (request : PaymentRefundRequest) : PaymentDB × RefundOutcome :=
  let lookupResult : Option PaymentAggregate × Option String :=
    if request.paymentID ≠ 0 then
      match getPaymentByID db request.paymentID with
      | Except.ok p => (some p, none)
      | Except.error e => (none, some e)
    else if request.transactionID ≠ "" then
      match getPaymentsBySagaID db request.sagaID with
      | [] => (none, none)
      | p :: _ => (some p, none)
    else
      (none, none)
  match lookupResult.2 with
  | some e => (db, RefundOutcome.event (PaymentOutEvent.refundFailed request.sagaID ("Payment bulunamadi: " ++ e)))
  | none =>
    match lookupResult.1 with
    | none => (db, RefundOutcome.nilDeref)
    | some payment =>
      if !payment.canRefund then
        (db, RefundOutcome.event (PaymentOutEvent.refundFailed request.sagaID "Payment refund edilemez"))
      else
        let refundAmount := request.amount
        if refundAmount ≤ 0 ∨ refundAmount > payment.getRemainingRefundAmount then
          (db, RefundOutcome.event (PaymentOutEvent.refundFailed request.sagaID "Gecersiz refund amount"))
        else
          match gw with
          | Except.error e =>
            (db, RefundOutcome.event (PaymentOutEvent.refundFailed request.sagaID ("Gateway refund error: " ++ e)))
          | Except.ok resp =>
            if !resp.success then
              (db, RefundOutcome.event (PaymentOutEvent.refundFailed request.sagaID resp.failureReason))
            else
              match payment.refundPayment resp.refundReference refundAmount with
              | Except.error e =>
                (db, RefundOutcome.event (PaymentOutEvent.refundFailed request.sagaID ("Refund processing error: " ++ e)))
              | Except.ok payment =>
                (updatePayment db payment,
                 RefundOutcome.event (PaymentOutEvent.refunded payment.sagaID payment.orderID payment.id payment.transactionID payment.refundReference refundAmount payment.refundedAmount))

/-- `PaymentHandler.mapToPaymentRefundRequest`: project the dynamic
`payment.refund` payload into a typed request.  A missing or non-string
`payment_id` leaves `uuid.Nil`; a missing `transaction_id` leaves the empty
string; `amount` is required. -/
def mapToPaymentRefundRequest (sagaID : Nat) (payload : JMap) : Except String PaymentRefundRequest :=
  match mapGet payload "amount" with
  | JVal.num amount =>
    let request : PaymentRefundRequest :=
      { sagaID := sagaID, paymentID := 0, transactionID := "", amount := amount, reason := "" }
    let request :=
      match mapGet payload "reason" with
      | JVal.str r => { request with reason := r }
      | _ => request
    let request :=
      match mapGet payload "transaction_id" with
      | JVal.str t => { request with transactionID := t }
      | _ => request
    let request :=
      match mapGet payload "payment_id" with
      | JVal.uid pid => { request with paymentID := pid }
      | _ => request
    Except.ok request
  | _ => Except.error "missing or invalid refund amount"

/-! ### Claim C7: duplicate `payment.process` -/

/-- The payment row persisted by the first delivery of `payment.process` for
order 7: completed, with its gateway references. -/
def c7Pay : PaymentAggregate :=
  (newPaymentAggregate 1 7 3 9 100 "credit_card").processPayment "TXN_1" "REF_1"

/-- The payment database after the first delivery. -/
def c7DB : PaymentDB := { payments := [c7Pay], nextID := 2 }

/-- The duplicate `payment.process` command for the same order. -/
def c7Req : PaymentProcessRequest :=
  { sagaID := 9, orderID := 7, customerID := 3, amount := 100, paymentMethod := "credit_card" }

/-- A successful gateway outcome for the duplicate call (the gateway is not
even reached on the duplicate path, but the claim's premise allows any). -/
def c7GW : Except String GatewayPaymentResponse :=
  Except.ok
    { success := true, transactionID := "TXN_2", externalRef := "REF_2",
      status := "completed", amount := 100, failureReason := "" }

/-- Claim C7, counterexample.  The claim states that on a duplicate
`payment.process` the handler reloads the existing row and re-emits the
terminal event matching its persisted status — here `payment.processed`,
since the stored payment is `completed` — rather than reporting the
collision as a payment failure.  At this concrete input the handler does
create no second row, but it publishes `payment.failed` with a
database-error reason: exactly the behaviour the claim excludes. -/
theorem C7_counterexample :
    ((processPayment c7DB c7GW c7Req).1.payments = c7DB.payments)
    ∧ ((processPayment c7DB c7GW c7Req).2
        = PaymentOutEvent.failed 9 7 "Database error: duplicate key value violates unique constraint" 100)
    ∧ (getPaymentByID c7DB 1 = Except.ok c7Pay)
    ∧ (c7Pay.status = PaymentStatus.completed) :=
  ⟨rfl, rfl, rfl, rfl⟩

/-- Claim C7 as amended: a duplicate `payment.process` for an order that
already has a payment row creates no second row (the insert collides on the
unique constraint), but the handler never reloads the existing row: it
publishes `payment.failed` with a database-error reason regardless of the
persisted status of the existing payment. -/
theorem C7_amended (db : PaymentDB) (gw : Except String GatewayPaymentResponse)
    (request : PaymentProcessRequest) (hpos : 0 < request.amount)
    (hdup : ∃ p ∈ db.payments, p.orderID = request.orderID) :
    (processPayment db gw request).1.payments = db.payments
    ∧ (processPayment db gw request).2
      = PaymentOutEvent.failed request.sagaID request.orderID
          "Database error: duplicate key value violates unique constraint" request.amount := by
  obtain ⟨p, hp, hpo⟩ := hdup
  have hany : db.payments.any
      (fun q => decide (q.id = (newPaymentAggregate db.nextID request.orderID request.customerID request.sagaID request.amount request.paymentMethod).id)
        || decide (q.orderID = (newPaymentAggregate db.nextID request.orderID request.customerID request.sagaID request.amount request.paymentMethod).orderID)) = true := by
    rw [List.any_eq_true]
    exact ⟨p, hp, by simp [newPaymentAggregate, hpo]⟩
  have hneg : ¬ request.amount ≤ 0 := not_le.mpr hpos
  simp only [processPayment, if_neg hneg, createPayment, hany]
  simp

/-- Claim C7, witness for the amended theorem at the concrete duplicate. -/
theorem C7_witness :
    (processPayment c7DB c7GW c7Req).1.payments = c7DB.payments
    ∧ (processPayment c7DB c7GW c7Req).2
      = PaymentOutEvent.failed c7Req.sagaID c7Req.orderID
          "Database error: duplicate key value violates unique constraint" c7Req.amount :=
  C7_amended c7DB c7GW c7Req (by decide) (by decide)

/-! ### Claim C9: the refund invariant of the payment aggregate -/

/-- The operations of the payment aggregate that mutate a payment after
creation: `ProcessPayment`, `RefundPayment`, `FailPayment`. -/
inductive PaymentOp where
| process (transactionID externalRef : String) : PaymentOp
| refund (refundRef : String) (amount : Rat) : PaymentOp
| fail (reason : String) : PaymentOp
deriving DecidableEq, Repr

/-- Apply one aggregate operation; a rejected refund (the aggregate returns
an error) leaves the payment unchanged. -/
def applyPaymentOp (p : PaymentAggregate) : PaymentOp → PaymentAggregate
| PaymentOp.process t r => p.processPayment t r
| PaymentOp.refund ref amt =>
  match p.refundPayment ref amt with
  | Except.ok q => q
  | Except.error _ => p
| PaymentOp.fail reason => p.failPayment reason

/-- Apply a sequence of aggregate operations. -/
def applyPaymentOps (p : PaymentAggregate) (ops : List PaymentOp) : PaymentAggregate :=
  ops.foldl applyPaymentOp p

/-- The refund invariant of §3 and §8 of the spec:
`0 ≤ refunded_amount ≤ amount` and `status = refunded ⇒ refunded_amount > 0`. -/
def PaymentInvariant (p : PaymentAggregate) : Prop :=
  0 ≤ p.refundedAmount ∧ p.refundedAmount ≤ p.amount
    ∧ (p.status = PaymentStatus.refunded → 0 < p.refundedAmount)

/-- `RefundPayment` succeeds exactly on a completed payment with a positive
amount within the remaining refundable amount (given the invariant). -/
theorem refundPayment_ok_iff (p : PaymentAggregate) (ref : String) (amt : Rat)
    (hinv : PaymentInvariant p) :
    (∃ q, p.refundPayment ref amt = Except.ok q)
      ↔ (p.status = PaymentStatus.completed ∧ 0 < amt ∧ amt ≤ p.amount - p.refundedAmount) := by
  obtain ⟨h0, h1, _⟩ := hinv
  unfold PaymentAggregate.refundPayment
  split_ifs with hs ha hl
  · constructor
    · rintro ⟨q, hq⟩
      exact hq.elim
    · rintro ⟨hstat, _, _⟩
      exact absurd hstat hs
  · constructor
    · rintro ⟨q, hq⟩
      exact hq.elim
    · rintro ⟨_, hpos, hle⟩
      rcases ha with ha | ha
      · linarith
      · linarith
  · constructor
    · rintro ⟨q, hq⟩
      exact hq.elim
    · rintro ⟨_, hpos, hle⟩
      linarith
  · constructor
    · rintro ⟨q, hq⟩
      push_neg at ha hl
      exact ⟨not_not.mp hs, ha.1, by linarith⟩
    · rintro _
      exact ⟨_, rfl⟩

/-- A successful `RefundPayment` preserves the invariant. -/
theorem paymentInvariant_refund_ok (p q : PaymentAggregate) (ref : String) (amt : Rat)
    (hinv : PaymentInvariant p) (h : p.refundPayment ref amt = Except.ok q) :
    PaymentInvariant q := by
  obtain ⟨h0, h1, h2⟩ := hinv
  unfold PaymentAggregate.refundPayment at h
  split_ifs at h with hs ha hl
  push_neg at ha hl
  injection h with h
  subst h
  refine ⟨?_, ?_, fun _ => ?_⟩
  · show (0 : Rat) ≤ p.refundedAmount + amt
    linarith
  · show p.refundedAmount + amt ≤ p.amount
    linarith
  · show (0 : Rat) < p.refundedAmount + amt
    linarith

/-- Every aggregate operation preserves the invariant. -/
theorem paymentInvariant_applyOp (p : PaymentAggregate) (op : PaymentOp)
    (hinv : PaymentInvariant p) : PaymentInvariant (applyPaymentOp p op) := by
  obtain ⟨h0, h1, h2⟩ := hinv
  cases op with
  | process t r =>
    exact ⟨h0, h1, fun h => nomatch h⟩
  | fail reason =>
    exact ⟨h0, h1, fun h => nomatch h⟩
  | refund ref amt =>
    simp only [applyPaymentOp]
    cases hr : p.refundPayment ref amt with
    | error e => exact ⟨h0, h1, h2⟩
    | ok q => exact paymentInvariant_refund_ok p q ref amt ⟨h0, h1, h2⟩ hr

/-- Every sequence of aggregate operations preserves the invariant. -/
theorem paymentInvariant_applyOps (p : PaymentAggregate) (ops : List PaymentOp)
    (hinv : PaymentInvariant p) : PaymentInvariant (applyPaymentOps p ops) := by
  induction ops generalizing p with
  | nil => exact hinv
  | cons op rest ih => exact ih _ (paymentInvariant_applyOp p op hinv)

/-- Claim C9: starting from a freshly created payment of positive amount,
after any sequence of accepted aggregate operations
`0 ≤ refunded_amount ≤ amount` holds with `status = refunded` implying
`refunded_amount > 0`; and a refund is accepted exactly when the payment is
`completed` and `0 < amount ≤ remaining refundable amount`. -/
theorem C9_refund_invariant (paymentID orderID customerID sagaID : Nat) (amount : Rat)
    (paymentMethod : String) (ops : List PaymentOp) (hamount : 0 < amount) :
    PaymentInvariant (applyPaymentOps (newPaymentAggregate paymentID orderID customerID sagaID amount paymentMethod) ops)
    ∧ ∀ (p : PaymentAggregate) (ref : String) (amt : Rat), PaymentInvariant p →
        ((∃ q, p.refundPayment ref amt = Except.ok q)
          ↔ (p.status = PaymentStatus.completed ∧ 0 < amt ∧ amt ≤ p.amount - p.refundedAmount)) := by
  constructor
  · exact paymentInvariant_applyOps _ ops ⟨le_refl 0, le_of_lt hamount, fun h => nomatch h⟩
  · exact fun p ref amt hinv => refundPayment_ok_iff p ref amt hinv

/-- Claim C9, witness: a payment of 100 is processed and then fully
refunded; the invariant holds at the result and the acceptance
characterisation holds. -/
theorem C9_witness :
    0 < (100 : Rat)
    ∧ (PaymentInvariant (applyPaymentOps (newPaymentAggregate 1 7 3 9 100 "credit_card")
          [PaymentOp.process "TXN_1" "REF_1", PaymentOp.refund "RREF_1" 100])
       ∧ ∀ (p : PaymentAggregate) (ref : String) (amt : Rat), PaymentInvariant p →
          ((∃ q, p.refundPayment ref amt = Except.ok q)
            ↔ (p.status = PaymentStatus.completed ∧ 0 < amt ∧ amt ≤ p.amount - p.refundedAmount))) :=
  ⟨by norm_num,
   C9_refund_invariant 1 7 3 9 100 "credit_card"
     [PaymentOp.process "TXN_1" "REF_1", PaymentOp.refund "RREF_1" 100] (by norm_num)⟩

/-! ### Claim C10: `payment.refund` with an empty lookup shape -/

/-- Claim C10: the refund handler is not total.  For a `payment.refund`
request whose `payment_id` is `uuid.Nil` and whose `transaction_id` is the
empty string — precisely the typed request that
`mapToPaymentRefundRequest` produces from a payload whose `payment_id` and
`transaction_id` came from never-populated saga context keys (JSON null) —
`ProcessRefund` assigns no payment in either lookup branch, leaves `err`
nil (the inner `err` of the `transaction_id` branch is shadowed), and then
calls `payment.CanRefund()` on the nil aggregate: a nil-pointer
dereference, not a published `payment.refund.failed` and not an error
return. -/
theorem C10_refund_nil_payment_crash (db : PaymentDB) (gw : Except String GatewayRefundResponse)
    (sagaID : Nat) (amount : Rat) (reason : String) :
    (mapToPaymentRefundRequest sagaID
        [("payment_id", JVal.null), ("transaction_id", JVal.null),
         ("amount", JVal.num amount), ("reason", JVal.str reason)]
      = Except.ok { sagaID := sagaID, paymentID := 0, transactionID := "", amount := amount, reason := reason })
    ∧ (processRefund db gw { sagaID := sagaID, paymentID := 0, transactionID := "", amount := amount, reason := reason }).2
      = RefundOutcome.nilDeref :=
  ⟨rfl, rfl⟩

/-! ## Inventory service
Embedding of `inventory-service/internal/domain/inventory.go`,
`internal/repository/inventory_repository.go` and
`internal/service/inventory_service.go`. -/

/-- `types.InventoryStatus`. -/
inductive InventoryStatus where
| available : InventoryStatus
| reserved : InventoryStatus
| released : InventoryStatus
| sold : InventoryStatus
deriving DecidableEq, Repr

/-- `types.Product` / `domain.InventoryAggregate`. -/
structure Product where
  id : Nat
  name : String
  price : Rat
  stock : Int
  reservedStock : Int
deriving DecidableEq, Repr

/-- `InventoryAggregate.CanReserve`: available stock covers the quantity. -/
def Product.canReserve (p : Product) (quantity : Int) : Bool :=
  decide (p.stock - p.reservedStock ≥ quantity)

/-- `InventoryAggregate.Reserve`: guarded increment of `reserved_stock`. -/
def Product.reserve (p : Product) (quantity : Int) : Except String Product :=
  if !(p.canReserve quantity) then
    Except.error "insufficient stock"
  else
    Except.ok { p with reservedStock := p.reservedStock + quantity }

/-- `InventoryAggregate.Release`: decrement `reserved_stock`, but only when
it is at least the quantity (never below zero).  Note that the guard is on
the stock level, not on any reservation status. -/
def Product.release (p : Product) (quantity : Int) : Product :=
  if p.reservedStock ≥ quantity then
    { p with reservedStock := p.reservedStock - quantity }
  else
    p

/-- `types.InventoryReservation` / `domain.ReservationAggregate`
(timestamps elided). -/
structure Reservation where
  id : Nat
  orderID : Nat
  productID : Nat
  sagaID : Nat
  quantity : Int
  status : InventoryStatus
deriving DecidableEq, Repr

/-- `domain.NewReservationAggregate`: a fresh `reserved` reservation (the
fresh `uuid.New()` id is the `reservationID` argument). -/
def newReservationAggregate (reservationID orderID productID sagaID : Nat) (quantity : Int) : Reservation :=
  { id := reservationID, orderID := orderID, productID := productID,
    sagaID := sagaID, quantity := quantity, status := InventoryStatus.reserved }

/-- `ReservationAggregate.Release`. -/
def Reservation.release (r : Reservation) : Reservation :=
  { r with status := InventoryStatus.released }

/-- The inventory database: `products` and `inventory_reservations` tables
plus the `uuid.New()` counter. -/
structure InventoryDB where
  products : List Product
  reservations : List Reservation
  nextID : Nat
deriving DecidableEq, Repr

/-- `InventoryRepository.GetProductByID`. -/
def getProductByID (db : InventoryDB) (productID : Nat) : Except String Product :=
  match db.products.find? (fun p => decide (p.id = productID)) with
  | some p => Except.ok p
  | none => Except.error ("product not found: " ++ toString productID)

/-- `InventoryRepository.UpdateProduct`: UPDATE by `id`. -/
def updateProduct (db : InventoryDB) (p : Product) : InventoryDB :=
  { db with products := db.products.map fun q => if q.id = p.id then p else q }

/-- `InventoryRepository.CreateReservation`: plain INSERT. -/
def createReservation (db : InventoryDB) (r : Reservation) : InventoryDB :=
  { db with reservations := db.reservations ++ [r] }

/-- `InventoryRepository.GetReservationsBySagaID`: all rows of the saga,
whatever their status. -/
def getReservationsBySagaID (db : InventoryDB) (sagaID : Nat) : List Reservation :=
  db.reservations.filter fun r => decide (r.sagaID = sagaID)

/-- `InventoryRepository.UpdateReservation`: UPDATE by `id` (only the status
is ever changed by the embedded flows). -/
def updateReservation (db : InventoryDB) (r : Reservation) : InventoryDB :=
  { db with reservations := db.reservations.map fun q => if q.id = r.id then r else q }

/-- `domain.ReservationItem`. -/
structure ReservationItem where
  productID : Nat
  quantity : Int
deriving DecidableEq, Repr

/-- `domain.InventoryReserveRequest`. -/
structure InventoryReserveRequest where
  sagaID : Nat
  orderID : Nat
  items : List ReservationItem
deriving DecidableEq, Repr

/-- `domain.InventoryReleaseRequest`.  (`reservation_ids` is carried but the
release flow never reads it: the source loads by `saga_id`.) -/
structure InventoryReleaseRequest where
  sagaID : Nat
  orderID : Nat
  reservationIDs : List Nat
deriving DecidableEq, Repr

/-- The events the inventory service publishes, one constructor per
publisher of the source, holding exactly the payload fields the source
marshals. -/
inductive InventoryOutEvent where
| reserved (sagaID orderID : Nat) (reservations : List Reservation) : InventoryOutEvent
| failed (sagaID orderID productID : Nat) (reason : String) : InventoryOutEvent
| released (sagaID orderID : Nat) (reservationIDs : List Nat) : InventoryOutEvent
| releaseFailed (sagaID orderID : Nat) (reason : String) : InventoryOutEvent
deriving DecidableEq, Repr

/-- The item loop of `InventoryService.ReserveInventory`, reproduced
item by item: look the product up, check and reserve, persist the product,
insert a `reserved` reservation row, recurse on the remaining items.  Any
failure publishes `inventory.failed` for the offending product **and
returns immediately, leaving every earlier reservation of the same call in
place** — the loop contains no rollback. -/
def reserveItems (sagaID orderID : Nat) : InventoryDB → List ReservationItem → List Reservation → InventoryDB × InventoryOutEvent
| db, [], reservations => (db, InventoryOutEvent.reserved sagaID orderID reservations)
| db, item :: rest, reservations =>
  match getProductByID db item.productID with
  | Except.error e => (db, InventoryOutEvent.failed sagaID orderID item.productID ("Product not found: " ++ e))
  | Except.ok product =>
    if !(product.canReserve item.quantity) then
      (db, InventoryOutEvent.failed sagaID orderID item.productID "Insufficient stock")
    else
      match product.reserve item.quantity with
      | Except.error e => (db, InventoryOutEvent.failed sagaID orderID item.productID e)
      | Except.ok product =>
        let db1 := updateProduct db product
        let r := newReservationAggregate db1.nextID orderID item.productID sagaID item.quantity
        let db2 := { createReservation db1 r with nextID := db1.nextID + 1 }
        reserveItems sagaID orderID db2 rest (reservations ++ [r])

/-- `InventoryService.ReserveInventory`. -/
def reserveInventory (db : InventoryDB) (request : InventoryReserveRequest) : InventoryDB × InventoryOutEvent :=
  reserveItems request.sagaID request.orderID db request.items []

/-- The reservation loop of `InventoryService.ReleaseInventory`: for every
loaded reservation — the source does **not** filter on status `reserved` —
release the product quantity (guarded only by the stock level) and set the
reservation `released`; a missing product is skipped (`continue`). -/
def releaseItems : InventoryDB → List Reservation → InventoryDB
| db, [] => db
| db, r :: rest =>
  match getProductByID db r.productID with
  | Except.error _ => releaseItems db rest
  | Except.ok product =>
    let product := product.release r.quantity
    let db := updateProduct db product
    let r := r.release
    let db := updateReservation db r
    releaseItems db rest

/-- `InventoryService.ReleaseInventory`: load the saga's reservations, run
the release loop, publish `inventory.released` with the loaded ids. -/
def releaseInventory (db : InventoryDB) (request : InventoryReleaseRequest) : InventoryDB × InventoryOutEvent :=
  let reservations := getReservationsBySagaID db request.sagaID
  let db := releaseItems db reservations
  (db, InventoryOutEvent.released request.sagaID request.orderID (reservations.map fun r => r.id))

/-! ### Shared lemmas about keyed row lists (`UPDATE … WHERE id = $1`) -/

/-- Replacing rows of a key that no row has is the identity. -/
theorem map_replace_eq_of_not_mem {α : Type} (key : α → Nat) (a : α) (l : List α)
    (h : ∀ x ∈ l, key x ≠ key a) :
    (l.map fun x => if key x = key a then a else x) = l := by
  induction l with
  | nil => rfl
  | cons y ys ih =>
    simp only [List.map_cons]
    rw [if_neg (h y (List.mem_cons_self y ys)), ih fun x hx => h x (List.mem_cons_of_mem y hx)]

/-- Writing back an element already in a key-unique list is the identity. -/
theorem map_replace_self {α : Type} (key : α → Nat) (a : α) (l : List α)
    (hnd : (l.map key).Nodup) (ha : a ∈ l) :
    (l.map fun x => if key x = key a then a else x) = l := by
  induction l with
  | nil => cases ha
  | cons y ys ih =>
    simp only [List.map_cons] at hnd
    obtain ⟨hy, hys⟩ := List.nodup_cons.mp hnd
    simp only [List.map_cons]
    rcases List.mem_cons.mp ha with rfl | ha2
    · rw [if_pos rfl, map_replace_eq_of_not_mem]
      intro x hx hk
      exact hy (hk ▸ List.mem_map_of_mem key hx)
    · have hne : key y ≠ key a := fun hk => hy (hk ▸ List.mem_map_of_mem key ha2)
      rw [if_neg hne, ih hys ha2]

/-- A keyed replacement leaves lookups of other keys unchanged. -/
theorem find_replace_other {α : Type} (key : α → Nat) (a : α) (l : List α) (i : Nat)
    (h : key a ≠ i) :
    (l.map fun x => if key x = key a then a else x).find? (fun x => decide (key x = i))
      = l.find? (fun x => decide (key x = i)) := by
  induction l with
  | nil => rfl
  | cons y ys ih =>
    simp only [List.map_cons]
    by_cases hk : key y = key a
    · have hyi : ¬ (key y = i) := fun hh => h (hk ▸ hh)
      rw [if_pos hk, List.find?_cons_of_neg _ (by simp [h]), List.find?_cons_of_neg _ (by simp [hyi])]
      exact ih
    · rw [if_neg hk]
      by_cases hyi : key y = i
      · rw [List.find?_cons_of_pos _ (by simp [hyi]), List.find?_cons_of_pos _ (by simp [hyi])]
      · rw [List.find?_cons_of_neg _ (by simp [hyi]), List.find?_cons_of_neg _ (by simp [hyi])]
        exact ih

/-- After a keyed replacement, looking the key up yields the new element
(provided the key was present). -/
theorem find_replace_self {α : Type} (key : α → Nat) (a : α) (l : List α) (i : Nat) (b : α)
    (hfind : l.find? (fun x => decide (key x = i)) = some b) (hk : key a = i) :
    (l.map fun x => if key x = key a then a else x).find? (fun x => decide (key x = i)) = some a := by
  induction l with
  | nil => cases hfind
  | cons y ys ih =>
    simp only [List.map_cons]
    by_cases hyi : key y = i
    · have hya : key y = key a := by rw [hyi, hk]
      rw [if_pos hya, List.find?_cons_of_pos _ (by simp [hk])]
    · have hya : key y ≠ key a := fun hh => hyi (by rw [hh, hk])
      rw [if_neg hya, List.find?_cons_of_neg _ (by simp [hyi])]
      apply ih
      rwa [List.find?_cons_of_neg _ (by simp [hyi])] at hfind

/-- A successful product lookup: the underlying row query, the id match and
the membership. -/
theorem getProductByID_ok (db : InventoryDB) (pid : Nat) (p : Product)
    (h : getProductByID db pid = Except.ok p) :
    db.products.find? (fun q => decide (q.id = pid)) = some p ∧ p.id = pid ∧ p ∈ db.products := by
  unfold getProductByID at h
  cases hf : db.products.find? (fun q => decide (q.id = pid)) with
  | none => rw [hf] at h; cases h
  | some q =>
    rw [hf] at h
    injection h with hq
    subst hq
    refine ⟨rfl, ?_, List.mem_of_find?_eq_some hf⟩
    have h1 := List.find?_some hf
    simpa using h1

/-! ### Claim C5: mid-request failure of `inventory.reserve` -/

/-- The reserve loop only ever adds reservation rows: existing rows stay. -/
theorem reserveItems_reservations_mem (sagaID orderID : Nat) (items : List ReservationItem)
    (db : InventoryDB) (acc : List Reservation) (r : Reservation) (hr : r ∈ db.reservations) :
    r ∈ (reserveItems sagaID orderID db items acc).1.reservations := by
  induction items generalizing db acc with
  | nil => exact hr
  | cons item rest ih =>
    simp only [reserveItems]
    split
    · exact hr
    · split
      · exact hr
      · split
        · exact hr
        · apply ih
          simp only [createReservation, updateProduct]
          exact List.mem_append_left _ hr

/-- The reserve loop leaves products that none of its items mention
untouched. -/
theorem reserveItems_find_untouched (sagaID orderID : Nat) (items : List ReservationItem)
    (db : InventoryDB) (acc : List Reservation) (pid : Nat)
    (hpid : pid ∉ items.map fun it => it.productID) :
    (reserveItems sagaID orderID db items acc).1.products.find? (fun p => decide (p.id = pid))
      = db.products.find? (fun p => decide (p.id = pid)) := by
  induction items generalizing db acc with
  | nil => rfl
  | cons item rest ih =>
    simp only [List.map_cons, List.mem_cons, not_or] at hpid
    obtain ⟨hpid1, hpid2⟩ := hpid
    simp only [reserveItems]
    split
    · rfl
    · next product hp =>
      split
      · rfl
      · split
        · rfl
        · next product2 hp2 =>
          rw [ih _ _ hpid2]
          show (updateProduct db product2).products.find? _ = _
          have hid : product.id = item.productID := (getProductByID_ok db item.productID product hp).2.1
          have hid2 : product2.id = item.productID := by
            unfold Product.reserve at hp2
            split at hp2
            · cases hp2
            · injection hp2 with hq
              subst hq
              exact hid
          exact find_replace_other Product.id product2 db.products pid
            (by rw [hid2]; exact fun hh => hpid1 hh.symm)

/-- A failure event of the reserve loop names one of the loop's items. -/
theorem reserveItems_failed_mem (sagaID orderID : Nat) (items : List ReservationItem)
    (db : InventoryDB) (acc : List Reservation) (a b pid : Nat) (reason : String)
    (h : (reserveItems sagaID orderID db items acc).2 = InventoryOutEvent.failed a b pid reason) :
    pid ∈ items.map fun it => it.productID := by
  induction items generalizing db acc with
  | nil => cases h
  | cons item rest ih =>
    simp only [reserveItems] at h
    simp only [List.map_cons, List.mem_cons]
    split at h
    · injection h with h1 h2 h3 h4
      exact Or.inl h3.symm
    · split at h
      · injection h with h1 h2 h3 h4
        exact Or.inl h3.symm
      · split at h
        · injection h with h1 h2 h3 h4
          exact Or.inl h3.symm
        · exact Or.inr (ih _ _ h)

/-- Unfolding one successful iteration of the reserve loop. -/
theorem reserveItems_cons_step (sagaID orderID : Nat) (db : InventoryDB) (item1 : ReservationItem)
    (rest : List ReservationItem) (acc : List Reservation) (p : Product)
    (hp : getProductByID db item1.productID = Except.ok p)
    (hcan : p.canReserve item1.quantity = true) :
    reserveItems sagaID orderID db (item1 :: rest) acc
      = reserveItems sagaID orderID
          { products := (updateProduct db { p with reservedStock := p.reservedStock + item1.quantity }).products
            reservations := db.reservations ++ [newReservationAggregate db.nextID orderID item1.productID sagaID item1.quantity]
            nextID := db.nextID + 1 }
          rest (acc ++ [newReservationAggregate db.nextID orderID item1.productID sagaID item1.quantity]) := by
  simp [reserveItems, hp, hcan, Product.reserve, updateProduct, createReservation]

/-- The inventory before the partially failing reserve request: one known
product with free stock, no reservations. -/
def c5DB : InventoryDB :=
  { products := [{ id := 1, name := "Laptop Pro 15", price := 1299.99, stock := 10, reservedStock := 0 }]
    reservations := []
    nextID := 100 }

/-- An `inventory.reserve` request whose first item is satisfiable and whose
second names an unknown product. -/
def c5Req : InventoryReserveRequest :=
  { sagaID := 5, orderID := 6
    items := [{ productID := 1, quantity := 2 }, { productID := 2, quantity := 1 }] }

/-- Claim C5, counterexample.  The claim states that when some item of an
`inventory.reserve` request fails, the handler emits `inventory.failed` with
the offending product and reason **and the inventory state afterwards equals
the state before the request**.  At this concrete input the second item
fails (product 2 unknown): `inventory.failed` is emitted with product 2, but
product 1's `reserved_stock` has moved from 0 to 2 and a `reserved`
reservation row for the saga remains — the prior reservation is not rolled
back. -/
theorem C5_counterexample :
    ((reserveInventory c5DB c5Req).2
      = InventoryOutEvent.failed 5 6 2 "Product not found: product not found: 2")
    ∧ (getProductByID c5DB 1
      = Except.ok { id := 1, name := "Laptop Pro 15", price := 1299.99, stock := 10, reservedStock := 0 })
    ∧ (getProductByID (reserveInventory c5DB c5Req).1 1
      = Except.ok { id := 1, name := "Laptop Pro 15", price := 1299.99, stock := 10, reservedStock := 2 })
    ∧ ((2 : Int) ≠ 0)
    ∧ ((reserveInventory c5DB c5Req).1.reservations.filter
        (fun r => decide (r.sagaID = 5) && decide (r.status = InventoryStatus.reserved)) ≠ []) :=
  ⟨rfl, rfl, rfl, by decide, by decide⟩

/-- Claim C5 as amended: when some item of an `inventory.reserve` request
fails, the handler emits `inventory.failed` with the offending `product_id`
(one of the request's items) and reason, but **reservations already made for
earlier items of the same request are left in place**: the first item's
product keeps its incremented `reserved_stock` and its `reserved`
reservation row for the saga survives in the final state.  (Stated for a
request whose first item succeeds and whose remaining items touch other
products; the source loop contains no rollback of any prefix.) -/
theorem C5_amended (db : InventoryDB) (request : InventoryReserveRequest)
    (item1 : ReservationItem) (rest : List ReservationItem) (p : Product)
    (a b pid : Nat) (reason : String)
    (hitems : request.items = item1 :: rest)
    (hp : getProductByID db item1.productID = Except.ok p)
    (hcan : p.canReserve item1.quantity = true)
    (hdisj : item1.productID ∉ rest.map fun it => it.productID)
    (hfail : (reserveInventory db request).2 = InventoryOutEvent.failed a b pid reason) :
    (pid ∈ request.items.map fun it => it.productID)
    ∧ getProductByID (reserveInventory db request).1 item1.productID
        = Except.ok { p with reservedStock := p.reservedStock + item1.quantity }
    ∧ ∃ r, r ∈ (reserveInventory db request).1.reservations
        ∧ r.sagaID = request.sagaID ∧ r.orderID = request.orderID
        ∧ r.productID = item1.productID ∧ r.quantity = item1.quantity
        ∧ r.status = InventoryStatus.reserved := by
  have hstep := reserveItems_cons_step request.sagaID request.orderID db item1 rest [] p hp hcan
  unfold reserveInventory at hfail ⊢
  rw [hitems] at hfail ⊢
  rw [hstep] at hfail ⊢
  have hfind : db.products.find? (fun q => decide (q.id = item1.productID)) = some p :=
    (getProductByID_ok db item1.productID p hp).1
  have hpid : p.id = item1.productID := (getProductByID_ok db item1.productID p hp).2.1
  refine ⟨?_, ?_, ?_⟩
  · rw [List.map_cons]
    exact List.mem_cons_of_mem _ (reserveItems_failed_mem _ _ _ _ _ _ _ _ _ hfail)
  · unfold getProductByID
    rw [reserveItems_find_untouched _ _ _ _ _ _ hdisj]
    have hfound :
        ({ products := (updateProduct db { p with reservedStock := p.reservedStock + item1.quantity }).products
           reservations := db.reservations ++ [newReservationAggregate db.nextID request.orderID item1.productID request.sagaID item1.quantity]
           nextID := db.nextID + 1 } : InventoryDB).products.find? (fun q => decide (q.id = item1.productID))
          = some { p with reservedStock := p.reservedStock + item1.quantity } := by
      show (updateProduct db { p with reservedStock := p.reservedStock + item1.quantity }).products.find? (fun q => decide (q.id = item1.productID)) = _
      exact find_replace_self Product.id _ db.products item1.productID p hfind hpid
    rw [hfound]
  · refine ⟨newReservationAggregate db.nextID request.orderID item1.productID request.sagaID item1.quantity, ?_, rfl, rfl, rfl, rfl, rfl⟩
    apply reserveItems_reservations_mem
    show _ ∈ db.reservations ++ [_]
    exact List.mem_append_right _ (List.mem_singleton.mpr rfl)

/-- Claim C5, witness: the amended theorem at the concrete two-item request
whose second item names an unknown product. -/
theorem C5_witness :
    ((2 : Nat) ∈ c5Req.items.map fun it => it.productID)
    ∧ getProductByID (reserveInventory c5DB c5Req).1 1
        = Except.ok { id := 1, name := "Laptop Pro 15", price := 1299.99, stock := 10, reservedStock := 0 + 2 }
    ∧ ∃ r, r ∈ (reserveInventory c5DB c5Req).1.reservations
        ∧ r.sagaID = c5Req.sagaID ∧ r.orderID = c5Req.orderID
        ∧ r.productID = 1 ∧ r.quantity = 2
        ∧ r.status = InventoryStatus.reserved :=
  C5_amended c5DB c5Req ⟨1, 2⟩ [⟨2, 1⟩]
    { id := 1, name := "Laptop Pro 15", price := 1299.99, stock := 10, reservedStock := 0 }
    5 6 2 "Product not found: product not found: 2" rfl rfl rfl (by decide) rfl

/-! ### Claim C6: idempotency of `inventory.release` -/

/-- The stock guard of `InventoryAggregate.Release` is exhausted for a
reservation: its product (when found) holds less reserved stock than the
reservation quantity. -/
def releaseGuardExhausted (db : InventoryDB) (r : Reservation) : Bool :=
  match getProductByID db r.productID with
  | Except.ok p => decide (p.reservedStock < r.quantity)
  | Except.error _ => true

/-- The release loop is the identity on a batch of reservations that are
already `released` and whose stock guards are exhausted (key-unique rows). -/
theorem releaseItems_no_change (db : InventoryDB)
    (hndP : (db.products.map Product.id).Nodup)
    (hndR : (db.reservations.map Reservation.id).Nodup) :
    ∀ l : List Reservation,
      (∀ r ∈ l, r ∈ db.reservations ∧ r.status = InventoryStatus.released
        ∧ releaseGuardExhausted db r = true) →
      releaseItems db l = db := by
  intro l
  induction l with
  | nil => intro _; rfl
  | cons r rest ih =>
    intro h
    obtain ⟨hmem, hrel, hguard⟩ := h r (List.mem_cons_self r rest)
    simp only [releaseItems]
    cases hp : getProductByID db r.productID with
    | error e => exact ih fun x hx => h x (List.mem_cons_of_mem r hx)
    | ok product =>
      obtain ⟨hfind, hid, hmemp⟩ := getProductByID_ok db r.productID product hp
      have hguard2 : ¬(product.reservedStock ≥ r.quantity) := by
        unfold releaseGuardExhausted at hguard
        rw [hp] at hguard
        exact not_le.mpr (of_decide_eq_true hguard)
      have hrelease : product.release r.quantity = product := by
        unfold Product.release
        rw [if_neg hguard2]
      have hup : updateProduct db product = db := by
        unfold updateProduct
        rw [map_replace_self Product.id product db.products hndP hmemp]
      have hrr : r.release = r := by
        unfold Reservation.release
        cases r
        simp only at hrel
        rw [hrel]
      have hur : updateReservation db r = db := by
        unfold updateReservation
        rw [map_replace_self Reservation.id r db.reservations hndR hmem]
      show releaseItems (updateReservation (updateProduct db (product.release r.quantity)) r.release) rest = db
      rw [hrelease, hup, hrr, hur]
      exact ih fun x hx => h x (List.mem_cons_of_mem r hx)

/-- An inventory with one product whose reserved stock is held by two sagas
(2 units each), both still `reserved`. -/
def c6DB : InventoryDB :=
  { products := [{ id := 1, name := "Laptop Pro 15", price := 1299.99, stock := 10, reservedStock := 4 }]
    reservations := [{ id := 100, orderID := 6, productID := 1, sagaID := 5, quantity := 2, status := InventoryStatus.reserved },
                     { id := 101, orderID := 7, productID := 1, sagaID := 9, quantity := 2, status := InventoryStatus.reserved }]
    nextID := 102 }

/-- The `inventory.release` request of the first saga. -/
def c6Req : InventoryReleaseRequest := { sagaID := 5, orderID := 6, reservationIDs := [100] }

/-- The state after the first release of saga 5. -/
def c6DB1 : InventoryDB := (releaseInventory c6DB c6Req).1

/-- The state after a duplicate release of saga 5. -/
def c6DB2 : InventoryDB := (releaseInventory c6DB1 c6Req).1

/-- Claim C6, counterexample.  The claim states that only reservations still
`reserved` cause a decrement, so a second release of the same saga leaves
every product's `reserved_stock` and every reservation status unchanged.
The source loop never checks the reservation status: it guards the decrement
only by `reserved_stock ≥ quantity`.  With a second saga still holding 2
units of the same product, the duplicate release finds `reserved_stock = 2 ≥
2` and decrements again: `reserved_stock` drops from 2 to 0 (stealing the
other saga's hold), even though the reservation statuses are unchanged. -/
theorem C6_counterexample :
    (getProductByID c6DB1 1
      = Except.ok { id := 1, name := "Laptop Pro 15", price := 1299.99, stock := 10, reservedStock := 2 })
    ∧ (getProductByID c6DB2 1
      = Except.ok { id := 1, name := "Laptop Pro 15", price := 1299.99, stock := 10, reservedStock := 0 })
    ∧ ((0 : Int) ≠ 2)
    ∧ (c6DB2.reservations = c6DB1.reservations) :=
  ⟨rfl, rfl, by decide, rfl⟩

/-- Claim C6 as amended: release idempotency does **not** come from a
reservation status check (there is none); the decrement is guarded only by
`reserved_stock ≥ quantity`.  A repeat release is a full no-op exactly in
the benign case: when every one of the saga's reservations is already
`released` and each product's remaining `reserved_stock` is below the
reservation quantity (as after a first release of a sole-holder saga), the
second release leaves the entire inventory state unchanged; when residual
reserved stock remains (for example another saga's hold on the same
product), the second release decrements `reserved_stock` again, as the
counterexample shows. -/
theorem C6_amended (db : InventoryDB) (request : InventoryReleaseRequest)
    (hndP : (db.products.map Product.id).Nodup)
    (hndR : (db.reservations.map Reservation.id).Nodup)
    (hrel : ∀ r ∈ db.reservations, r.sagaID = request.sagaID → r.status = InventoryStatus.released)
    (hguard : ∀ r ∈ db.reservations, r.sagaID = request.sagaID → releaseGuardExhausted db r = true) :
    (releaseInventory db request).1 = db := by
  unfold releaseInventory
  apply releaseItems_no_change db hndP hndR
  intro r hrf
  have hm := List.mem_filter.mp hrf
  have hs : r.sagaID = request.sagaID := of_decide_eq_true hm.2
  exact ⟨hm.1, hrel r hm.1 hs, hguard r hm.1 hs⟩

/-- The single-holder state after a completed first release: the saga's only
reservation is `released` and the product holds no reserved stock. -/
def c6DBr : InventoryDB :=
  { products := [{ id := 1, name := "Laptop Pro 15", price := 1299.99, stock := 10, reservedStock := 0 }]
    reservations := [{ id := 100, orderID := 6, productID := 1, sagaID := 5, quantity := 2, status := InventoryStatus.released }]
    nextID := 101 }

/-- Claim C6, witness: re-releasing the sole-holder saga after its first
release leaves the inventory state unchanged. -/
theorem C6_witness : (releaseInventory c6DBr c6Req).1 = c6DBr :=
  C6_amended c6DBr c6Req (by decide) (by decide) (by decide) (by decide)

end Saga
